import Mathlib

/-!
Verification of `src/models/generator.py` (vehicle arrival scheduler).

Shallow embedding conventions:
* The SimPy environment, the two `simpy.Resource` pool handles and the logger
  are opaque to the generator (it only stores them and passes them on), so each
  is modelled as an opaque `Nat` token.
* Interarrival delays are Python floats sampled by a nullary impure function
  `self.interarrival_func()`; the sampler is modelled as the stream
  `interarrival_func : Nat → ℚ` of its successive return values (call `k` of a
  run returns `interarrival_func k`).
* `random.shuffle` is deterministic in the RNG state; it is modelled as a
  Fisher–Yates-style shuffle driven by a stream `r : Nat → Nat` of raw draws
  (draw `k` selects index `r k` modulo the number of remaining elements).
  Every permutation of the input is realised by some stream `r`.
* The SimPy effects of `run` (a generator process) are made explicit:
  `yield env.timeout(d)` advances a simulated-time accumulator by `d`, and
  `simpy.Environment.timeout` raises `ValueError` when `d < 0`, which kills
  the process; `env.process(vehicle.process())` records a spawn event.
-/

/-- A spawned vehicle, as constructed by `Vehicle(vid, vtype, env, parking_res,
charger_res, logger)` in `generate_vehicle`.  Its lifecycle is external; only
the constructor arguments matter to the generator. -/
structure Vehicle where
  vid : Nat
  vtype : String
  env : Nat
  parking_res : Nat
  charger_res : Nat
  logger : Nat
deriving Repr, DecidableEq

/-- State of a `VehicleGenerator` instance: the four stored handles and the
vehicle-id counter `next_id`. -/
structure VehicleGenerator where
  env : Nat
  parking_res : Nat
  charger_res : Nat
  logger : Nat
  next_id : Nat
deriving Repr, DecidableEq

/-- Constructor `VehicleGenerator.__init__`: stores the four handles and sets
`self.next_id = 0`. -/
def VehicleGenerator.init (env parking_res charger_res logger : Nat) :
    VehicleGenerator :=
  { env := env, parking_res := parking_res, charger_res := charger_res,
    logger := logger, next_id := 0 }

/-- Method `VehicleGenerator.generate_vehicle`: constructs a `Vehicle` with the
current `next_id`, the given type and the stored handles, increments
`next_id`, and registers the vehicle's lifecycle process.  Returns the updated
generator state and the spawned vehicle. -/
def VehicleGenerator.generate_vehicle (g : VehicleGenerator) (vtype : String) :
    VehicleGenerator × Vehicle :=
  ({ g with next_id := g.next_id + 1 },
   { vid := g.next_id, vtype := vtype, env := g.env,
     parking_res := g.parking_res, charger_res := g.charger_res,
     logger := g.logger })

/-- The one failure the run loop can hit: `simpy.Environment.timeout` raises
`ValueError("Negative delay")` when handed a negative delay. -/
inductive SimErr where
  | negativeDelay
deriving Repr, DecidableEq

/-- One spawn recorded during a run: the simulated time at which the vehicle
was created, and the vehicle itself. -/
structure SpawnEvent where
  time : ℚ
  vehicle : Vehicle
deriving Repr, DecidableEq

/-- Outcome of driving the `run` generator to completion (or to the exception
that kills it): final generator state, final simulated time, the spawn events
in order, and the error if the process died. -/
structure RunResult where
  gen : VehicleGenerator
  time : ℚ
  events : List SpawnEvent
  error : Option SimErr
deriving Repr, DecidableEq

/-- Model of Python's `random.shuffle`, which is a Fisher–Yates shuffle
deterministic in the RNG state: `r` is the stream of raw random draws, and at
step `k` the element at index `r k` modulo the remaining length is selected.
The fuel argument starts at the list's length, so it never runs out. -/
def shuffleStep {α : Type} (r : Nat → Nat) : Nat → Nat → List α → List α
  | 0, _, l => l
  | _ + 1, _, [] => []
  | fuel + 1, k, x :: xs =>
    let i : Fin (x :: xs).length :=
      ⟨r k % (x :: xs).length, Nat.mod_lt _ (Nat.succ_pos xs.length)⟩
    (x :: xs).get i :: shuffleStep r fuel (k + 1) ((x :: xs).eraseIdx i.val)

/-- Shuffle call `random.shuffle(vehicle_types)` with raw-draw stream `r`. -/
def random_shuffle {α : Type} (r : Nat → Nat) (l : List α) : List α :=
  shuffleStep r l.length 0 l

/-- The list `["normal"] * normal_count + ["ev"] * ev_count` built at the top
of both `run` methods.  Python list repetition with a non-positive factor
yields the empty list, which is what `Int.toNat` produces. -/
def vehicle_types_list (normal_count ev_count : Int) : List String :=
  List.replicate normal_count.toNat "normal" ++ List.replicate ev_count.toNat "ev"

/-- The `for vtype in vehicle_types:` loop of `VehicleGenerator.run`
(lines 71–73): sample a delay, `yield env.timeout(delay)` (fatal if the delay
is negative), then `generate_vehicle(vtype)`.  `k` counts sampler calls and
`t` is the current simulated time. -/
def VehicleGenerator.runAux (interarrival_func : Nat → ℚ) :
    VehicleGenerator → List String → Nat → ℚ → RunResult
  | g, [], _, t => { gen := g, time := t, events := [], error := none }
  | g, vtype :: rest, k, t =>
    let d := interarrival_func k
    if d < 0 then
      { gen := g, time := t, events := [], error := some SimErr.negativeDelay }
    else
      let p := g.generate_vehicle vtype
      let res := VehicleGenerator.runAux interarrival_func p.1 rest (k + 1) (t + d)
      { res with events := { time := t + d, vehicle := p.2 } :: res.events }

/-- Method `VehicleGenerator.run` (lines 60–73).  The body reads
`self.normal_count`, `self.ev_count` and `self.interarrival_func`, attributes
the base constructor never sets; here they are passed explicitly, modelling an
instance on which they have been assigned (see `VehicleGeneratorPy` below for
the attribute-lookup model). -/
def VehicleGenerator.run (g : VehicleGenerator) (normal_count ev_count : Int)
    (interarrival_func : Nat → ℚ) (r : Nat → Nat) : RunResult :=
  let vehicle_types := random_shuffle r (vehicle_types_list normal_count ev_count)
  VehicleGenerator.runAux interarrival_func g vehicle_types 0 0

/-- State of a `CustomVehicleGenerator` instance: the base state plus the
three attributes its `__init__` adds. -/
structure CustomVehicleGenerator extends VehicleGenerator where
  interarrival_func : Nat → ℚ
  normal_count : Int
  ev_count : Int

/-- Constructor `CustomVehicleGenerator.__init__` (lines 81–105): calls the base
constructor (so `next_id = 0`) and stores the sampler and the two counts
unchanged — no validation is performed on the counts. -/
def CustomVehicleGenerator.init (env parking_res charger_res logger : Nat)
    (interarrival_func : Nat → ℚ) (normal_count ev_count : Int) :
    CustomVehicleGenerator :=
  { toVehicleGenerator := VehicleGenerator.init env parking_res charger_res logger,
    interarrival_func := interarrival_func,
    normal_count := normal_count, ev_count := ev_count }

/-- The `for vtype in vehicle_types:` loop of `CustomVehicleGenerator.run`
(lines 117–119), a textual duplicate of the base loop. -/
def CustomVehicleGenerator.runAux (interarrival_func : Nat → ℚ) :
    VehicleGenerator → List String → Nat → ℚ → RunResult
  | g, [], _, t => { gen := g, time := t, events := [], error := none }
  | g, vtype :: rest, k, t =>
    let d := interarrival_func k
    if d < 0 then
      { gen := g, time := t, events := [], error := some SimErr.negativeDelay }
    else
      let p := g.generate_vehicle vtype
      let res := CustomVehicleGenerator.runAux interarrival_func p.1 rest (k + 1) (t + d)
      { res with events := { time := t + d, vehicle := p.2 } :: res.events }

/-- Method `CustomVehicleGenerator.run` (lines 107–119): builds the type list from
its own counts, shuffles it, then runs the same loop with its own sampler. -/
def CustomVehicleGenerator.run (c : CustomVehicleGenerator) (r : Nat → Nat) :
    RunResult :=
  let vehicle_types := random_shuffle r (vehicle_types_list c.normal_count c.ev_count)
  CustomVehicleGenerator.runAux c.interarrival_func c.toVehicleGenerator vehicle_types 0 0

/-- Python-level error raised when `run` touches an attribute the instance
does not have. -/
inductive PyErr where
  | attributeError
deriving Repr, DecidableEq

/-- Attribute-lookup model of a Python `VehicleGenerator` instance: the three
attributes `run` reads but the base constructor never sets are `Option`s
(`none` = attribute missing, lookup raises `AttributeError`). -/
structure VehicleGeneratorPy where
  env : Nat
  parking_res : Nat
  charger_res : Nat
  logger : Nat
  next_id : Nat
  normal_count : Option Int
  ev_count : Option Int
  interarrival_func : Option (Nat → ℚ)

/-- An instance built by the base `VehicleGenerator.__init__` alone: the three
attributes `run` needs are absent. -/
def VehicleGeneratorPy.initBase (env parking_res charger_res logger : Nat) :
    VehicleGeneratorPy :=
  { env := env, parking_res := parking_res, charger_res := charger_res,
    logger := logger, next_id := 0,
    normal_count := none, ev_count := none, interarrival_func := none }

/-- An instance built by `CustomVehicleGenerator.__init__`: the base
constructor runs first, then the three attributes are assigned. -/
def VehicleGeneratorPy.initCustom (env parking_res charger_res logger : Nat)
    (interarrival_func : Nat → ℚ) (normal_count ev_count : Int) :
    VehicleGeneratorPy :=
  { env := env, parking_res := parking_res, charger_res := charger_res,
    logger := logger, next_id := 0,
    normal_count := some normal_count, ev_count := some ev_count,
    interarrival_func := some interarrival_func }

/-- Starting `run` on a Python instance: the body first reads
`self.normal_count`, `self.ev_count` and `self.interarrival_func`; a missing
attribute raises `AttributeError`, otherwise the run proceeds as
`VehicleGenerator.run`. -/
def VehicleGeneratorPy.run (g : VehicleGeneratorPy) (r : Nat → Nat) :
    Except PyErr RunResult :=
  match g.normal_count with
  | none => Except.error PyErr.attributeError
  | some n =>
    match g.ev_count with
    | none => Except.error PyErr.attributeError
    | some m =>
      match g.interarrival_func with
      | none => Except.error PyErr.attributeError
      | some f =>
        Except.ok (VehicleGenerator.run
          { env := g.env, parking_res := g.parking_res,
            charger_res := g.charger_res, logger := g.logger,
            next_id := g.next_id } n m f r)

/-! ### Shuffle lemmas -/

theorem perm_get_cons_eraseIdx {α : Type} (l : List α) :
    ∀ (i : Nat) (h : i < l.length), (l.get ⟨i, h⟩ :: l.eraseIdx i).Perm l := by
  induction l with
  | nil => intro i h; simp at h
  | cons x xs ih =>
    intro i h
    cases i with
    | zero => simp [List.eraseIdx]
    | succ i =>
      have h' : i < xs.length := by simpa using h
      have step : ((x :: xs).get ⟨i + 1, h⟩ :: (x :: xs).eraseIdx (i + 1)) =
          (xs.get ⟨i, h'⟩ :: x :: xs.eraseIdx i) := by
        simp [List.eraseIdx]
      rw [step]
      exact (List.Perm.swap x (xs.get ⟨i, h'⟩) (xs.eraseIdx i)).trans ((ih i h').cons x)

theorem shuffleStep_perm {α : Type} (r : Nat → Nat) :
    ∀ (fuel k : Nat) (l : List α), (shuffleStep r fuel k l).Perm l := by
  intro fuel
  induction fuel with
  | zero => intro k l; simp [shuffleStep]
  | succ fuel ih =>
    intro k l
    cases l with
    | nil => simp [shuffleStep]
    | cons x xs =>
      rw [shuffleStep]
      exact ((ih (k + 1) _).cons _).trans (perm_get_cons_eraseIdx (x :: xs) _ _)

theorem random_shuffle_perm {α : Type} (r : Nat → Nat) (l : List α) :
    (random_shuffle r l).Perm l :=
  shuffleStep_perm r l.length 0 l

theorem random_shuffle_length {α : Type} (r : Nat → Nat) (l : List α) :
    (random_shuffle r l).length = l.length :=
  (random_shuffle_perm r l).length_eq

/-! ### Run-loop lemmas -/

theorem CustomVehicleGenerator.runAux_gen (f : Nat → ℚ) :
    ∀ (plan : List String) (g : VehicleGenerator) (k : Nat) (t : ℚ),
      (CustomVehicleGenerator.runAux f g plan k t).gen =
        { g with next_id :=
            g.next_id + (CustomVehicleGenerator.runAux f g plan k t).events.length } := by
  intro plan
  induction plan with
  | nil => intro g k t; simp [CustomVehicleGenerator.runAux]
  | cons vtype rest ih =>
    intro g k t
    by_cases hd : f k < 0
    · simp [CustomVehicleGenerator.runAux, hd]
    · simp only [CustomVehicleGenerator.runAux, if_neg hd, VehicleGenerator.generate_vehicle]
      rw [ih]
      simp [Nat.add_assoc, Nat.add_comm]

theorem CustomVehicleGenerator.runAux_vtypes_of_ok (f : Nat → ℚ) :
    ∀ (plan : List String) (g : VehicleGenerator) (k : Nat) (t : ℚ),
      (CustomVehicleGenerator.runAux f g plan k t).error = none →
      (CustomVehicleGenerator.runAux f g plan k t).events.map (fun e => e.vehicle.vtype) =
        plan := by
  intro plan
  induction plan with
  | nil => intro g k t _; simp [CustomVehicleGenerator.runAux]
  | cons vtype rest ih =>
    intro g k t hok
    by_cases hd : f k < 0
    · simp [CustomVehicleGenerator.runAux, hd] at hok
    · simp only [CustomVehicleGenerator.runAux, if_neg hd,
        VehicleGenerator.generate_vehicle] at hok ⊢
      simp only [List.map_cons, List.cons.injEq]
      exact ⟨trivial, ih _ _ _ hok⟩

theorem CustomVehicleGenerator.runAux_length_of_ok (f : Nat → ℚ)
    (plan : List String) (g : VehicleGenerator) (k : Nat) (t : ℚ)
    (hok : (CustomVehicleGenerator.runAux f g plan k t).error = none) :
    (CustomVehicleGenerator.runAux f g plan k t).events.length = plan.length := by
  have h := CustomVehicleGenerator.runAux_vtypes_of_ok f plan g k t hok
  calc (CustomVehicleGenerator.runAux f g plan k t).events.length
      = ((CustomVehicleGenerator.runAux f g plan k t).events.map
          (fun e => e.vehicle.vtype)).length := (List.length_map _ _).symm
    _ = plan.length := by rw [h]

theorem CustomVehicleGenerator.runAux_vids (f : Nat → ℚ) :
    ∀ (plan : List String) (g : VehicleGenerator) (k : Nat) (t : ℚ),
      (CustomVehicleGenerator.runAux f g plan k t).events.map (fun e => e.vehicle.vid) =
        List.range' g.next_id (CustomVehicleGenerator.runAux f g plan k t).events.length := by
  intro plan
  induction plan with
  | nil => intro g k t; simp [CustomVehicleGenerator.runAux]
  | cons vtype rest ih =>
    intro g k t
    by_cases hd : f k < 0
    · simp [CustomVehicleGenerator.runAux, hd]
    · simp only [CustomVehicleGenerator.runAux, if_neg hd, VehicleGenerator.generate_vehicle]
      simp only [List.map_cons, List.length_cons, List.range', List.cons.injEq]
      exact ⟨trivial, ih _ _ _⟩

theorem CustomVehicleGenerator.runAux_handles (f : Nat → ℚ) :
    ∀ (plan : List String) (g : VehicleGenerator) (k : Nat) (t : ℚ),
      ∀ e ∈ (CustomVehicleGenerator.runAux f g plan k t).events,
        e.vehicle.env = g.env ∧ e.vehicle.parking_res = g.parking_res ∧
        e.vehicle.charger_res = g.charger_res ∧ e.vehicle.logger = g.logger := by
  intro plan
  induction plan with
  | nil => intro g k t e he; simp [CustomVehicleGenerator.runAux] at he
  | cons vtype rest ih =>
    intro g k t e he
    by_cases hd : f k < 0
    · simp [CustomVehicleGenerator.runAux, hd] at he
    · simp only [CustomVehicleGenerator.runAux, if_neg hd,
        VehicleGenerator.generate_vehicle, List.mem_cons] at he
      cases he with
      | inl h => subst h; exact ⟨rfl, rfl, rfl, rfl⟩
      | inr h =>
        have h4 := ih _ _ _ e h
        exact h4


theorem CustomVehicleGenerator.runAux_times (f : Nat → ℚ) :
    ∀ (plan : List String) (g : VehicleGenerator) (k : Nat) (t : ℚ),
      (CustomVehicleGenerator.runAux f g plan k t).events.map (fun e => e.time) =
        (List.range (CustomVehicleGenerator.runAux f g plan k t).events.length).map
          (fun i => t + ∑ j ∈ Finset.range (i + 1), f (k + j)) := by
  intro plan
  induction plan with
  | nil => intro g k t; simp [CustomVehicleGenerator.runAux]
  | cons vtype rest ih =>
    intro g k t
    by_cases hd : f k < 0
    · simp [CustomVehicleGenerator.runAux, hd]
    · simp only [CustomVehicleGenerator.runAux, if_neg hd, VehicleGenerator.generate_vehicle,
        List.map_cons, List.length_cons]
      rw [ih, List.range_succ_eq_map]
      simp only [List.map_cons, List.map_map, List.cons.injEq, Function.comp]
      refine ⟨by simp, List.map_congr_left (fun i _ => ?_)⟩
      simp only [Function.comp_apply, Nat.succ_eq_add_one]
      rw [Finset.sum_range_succ' (fun j => f (k + j)) (i + 1)]
      have hshift : ∑ j ∈ Finset.range (i + 1), f (k + (j + 1)) =
          ∑ j ∈ Finset.range (i + 1), f (k + 1 + j) :=
        Finset.sum_congr rfl (fun j _ => congrArg f (by omega))
      rw [hshift]
      simp [add_comm, add_assoc, add_left_comm]

theorem CustomVehicleGenerator.runAux_error_none_of_nonneg (f : Nat → ℚ)
    (hf : ∀ j, 0 ≤ f j) :
    ∀ (plan : List String) (g : VehicleGenerator) (k : Nat) (t : ℚ),
      (CustomVehicleGenerator.runAux f g plan k t).error = none := by
  intro plan
  induction plan with
  | nil => intro g k t; simp [CustomVehicleGenerator.runAux]
  | cons vtype rest ih =>
    intro g k t
    have hd : ¬ f k < 0 := not_lt.mpr (hf k)
    simp only [CustomVehicleGenerator.runAux, if_neg hd, VehicleGenerator.generate_vehicle]
    exact ih _ _ _

theorem CustomVehicleGenerator.runAux_neg (f : Nat → ℚ) :
    ∀ (plan : List String) (g : VehicleGenerator) (k : Nat) (t : ℚ) (idx : Nat),
      idx < plan.length → (∀ j, j < idx → 0 ≤ f (k + j)) → f (k + idx) < 0 →
      (CustomVehicleGenerator.runAux f g plan k t).error = some SimErr.negativeDelay ∧
      (CustomVehicleGenerator.runAux f g plan k t).events.length = idx ∧
      (CustomVehicleGenerator.runAux f g plan k t).time =
        t + ∑ j ∈ Finset.range idx, f (k + j) := by
  intro plan
  induction plan with
  | nil => intro g k t idx hidx _ _; simp at hidx
  | cons vtype rest ih =>
    intro g k t idx hidx hpos hneg
    cases idx with
    | zero =>
      have hd : f k < 0 := by simpa using hneg
      simp [CustomVehicleGenerator.runAux, hd]
    | succ idx =>
      have hd : ¬ f k < 0 := by
        have h0 := hpos 0 (Nat.succ_pos idx)
        simpa using not_lt.mpr h0
      simp only [CustomVehicleGenerator.runAux, if_neg hd, VehicleGenerator.generate_vehicle]
      have hrec := ih { g with next_id := g.next_id + 1 } (k + 1) (t + f k) idx
        (by simpa using hidx)
        (fun j hj => by
          have := hpos (j + 1) (Nat.succ_lt_succ hj)
          have harg : k + (j + 1) = k + 1 + j := by omega
          rwa [harg] at this)
        (by
          have harg : k + (idx + 1) = k + 1 + idx := by omega
          rwa [harg] at hneg)
      refine ⟨hrec.1, by simp [hrec.2.1], ?_⟩
      rw [hrec.2.2, Finset.sum_range_succ' (fun j => f (k + j)) idx]
      have hshift : ∑ j ∈ Finset.range idx, f (k + (j + 1)) =
          ∑ j ∈ Finset.range idx, f (k + 1 + j) :=
        Finset.sum_congr rfl (fun j _ => congrArg f (by omega))
      rw [hshift]
      simp [add_comm, add_assoc, add_left_comm]

theorem CustomVehicleGenerator.runAux_eq_base (f : Nat → ℚ) :
    ∀ (plan : List String) (g : VehicleGenerator) (k : Nat) (t : ℚ),
      CustomVehicleGenerator.runAux f g plan k t =
        VehicleGenerator.runAux f g plan k t := by
  intro plan
  induction plan with
  | nil => intro g k t; simp [CustomVehicleGenerator.runAux, VehicleGenerator.runAux]
  | cons vtype rest ih =>
    intro g k t
    by_cases hd : f k < 0
    · simp [CustomVehicleGenerator.runAux, VehicleGenerator.runAux, hd]
    · simp only [CustomVehicleGenerator.runAux, VehicleGenerator.runAux, if_neg hd]
      rw [ih]

/-! ### Run-level lemmas -/

theorem vehicle_types_list_length (n m : Int) :
    (vehicle_types_list n m).length = n.toNat + m.toNat := by
  simp [vehicle_types_list]

theorem vehicle_types_list_count_normal (n m : Int) :
    (vehicle_types_list n m).count "normal" = n.toNat := by
  simp [vehicle_types_list, List.count_append, List.count_replicate]

theorem vehicle_types_list_count_ev (n m : Int) :
    (vehicle_types_list n m).count "ev" = m.toNat := by
  simp [vehicle_types_list, List.count_append, List.count_replicate]

theorem CustomVehicleGenerator.run_vtypes_of_ok (c : CustomVehicleGenerator)
    (r : Nat → Nat) (hok : (c.run r).error = none) :
    (c.run r).events.map (fun e => e.vehicle.vtype) =
      random_shuffle r (vehicle_types_list c.normal_count c.ev_count) := by
  simp only [CustomVehicleGenerator.run] at hok ⊢
  exact CustomVehicleGenerator.runAux_vtypes_of_ok _ _ _ _ _ hok

theorem CustomVehicleGenerator.run_vtypes_perm_of_ok (c : CustomVehicleGenerator)
    (r : Nat → Nat) (hok : (c.run r).error = none) :
    ((c.run r).events.map (fun e => e.vehicle.vtype)).Perm
      (vehicle_types_list c.normal_count c.ev_count) := by
  rw [CustomVehicleGenerator.run_vtypes_of_ok c r hok]
  exact random_shuffle_perm r _

theorem CustomVehicleGenerator.run_length_of_ok (c : CustomVehicleGenerator)
    (r : Nat → Nat) (hok : (c.run r).error = none) :
    (c.run r).events.length = c.normal_count.toNat + c.ev_count.toNat := by
  have h := CustomVehicleGenerator.run_vtypes_perm_of_ok c r hok
  have hlen := h.length_eq
  rw [List.length_map, vehicle_types_list_length] at hlen
  exact hlen

theorem CustomVehicleGenerator.run_vids (c : CustomVehicleGenerator) (r : Nat → Nat) :
    (c.run r).events.map (fun e => e.vehicle.vid) =
      List.range' c.toVehicleGenerator.next_id (c.run r).events.length := by
  simp only [CustomVehicleGenerator.run]
  exact CustomVehicleGenerator.runAux_vids _ _ _ _ _

theorem CustomVehicleGenerator.run_times (c : CustomVehicleGenerator) (r : Nat → Nat) :
    (c.run r).events.map (fun e => e.time) =
      (List.range (c.run r).events.length).map
        (fun i => ∑ j ∈ Finset.range (i + 1), c.interarrival_func j) := by
  simp only [CustomVehicleGenerator.run]
  have h := CustomVehicleGenerator.runAux_times c.interarrival_func
    (random_shuffle r (vehicle_types_list c.normal_count c.ev_count))
    c.toVehicleGenerator 0 0
  simpa using h

theorem CustomVehicleGenerator.run_gen (c : CustomVehicleGenerator) (r : Nat → Nat) :
    (c.run r).gen =
      { c.toVehicleGenerator with
          next_id := c.toVehicleGenerator.next_id + (c.run r).events.length } := by
  simp only [CustomVehicleGenerator.run]
  exact CustomVehicleGenerator.runAux_gen _ _ _ _ _

theorem CustomVehicleGenerator.run_handles (c : CustomVehicleGenerator) (r : Nat → Nat) :
    ∀ e ∈ (c.run r).events,
      e.vehicle.env = c.toVehicleGenerator.env ∧
      e.vehicle.parking_res = c.toVehicleGenerator.parking_res ∧
      e.vehicle.charger_res = c.toVehicleGenerator.charger_res ∧
      e.vehicle.logger = c.toVehicleGenerator.logger := by
  simp only [CustomVehicleGenerator.run]
  exact CustomVehicleGenerator.runAux_handles _ _ _ _ _

theorem CustomVehicleGenerator.run_error_none_of_nonneg (c : CustomVehicleGenerator)
    (r : Nat → Nat) (hf : ∀ j, 0 ≤ c.interarrival_func j) :
    (c.run r).error = none := by
  simp only [CustomVehicleGenerator.run]
  exact CustomVehicleGenerator.runAux_error_none_of_nonneg _ hf _ _ _ _

/-! ### Claims -/

/-- C1: For every configured `normal_count = n` and `ev_count = m` with `n, m ≥ 0`,
a completed run of `CustomVehicleGenerator.run` spawns exactly `n + m` vehicles,
of which exactly `n` have type `"normal"` and exactly `m` have type `"ev"`,
regardless of the shuffle outcome (the multiset of types is fixed by the
configuration; only their order is randomized). -/
theorem c1_run_multiset_invariant
    (env parking_res charger_res logger : Nat) (f : Nat → ℚ) (n m : Int)
    (r : Nat → Nat) (hn : 0 ≤ n) (hm : 0 ≤ m)
    (hok : ((CustomVehicleGenerator.init env parking_res charger_res logger f n m).run
      r).error = none) :
    ((CustomVehicleGenerator.init env parking_res charger_res logger f n m).run
        r).events.length = (n + m).toNat ∧
    (((CustomVehicleGenerator.init env parking_res charger_res logger f n m).run
        r).events.map (fun e => e.vehicle.vtype)).count "normal" = n.toNat ∧
    (((CustomVehicleGenerator.init env parking_res charger_res logger f n m).run
        r).events.map (fun e => e.vehicle.vtype)).count "ev" = m.toNat := by
  have hperm := CustomVehicleGenerator.run_vtypes_perm_of_ok _ r hok
  refine ⟨?_, ?_, ?_⟩
  · rw [CustomVehicleGenerator.run_length_of_ok _ r hok]
    show n.toNat + m.toNat = (n + m).toNat
    rw [Int.toNat_add hn hm]
  · rw [hperm.count_eq]
    show (vehicle_types_list n m).count "normal" = n.toNat
    exact vehicle_types_list_count_normal n m
  · rw [hperm.count_eq]
    show (vehicle_types_list n m).count "ev" = m.toNat
    exact vehicle_types_list_count_ev n m

/-- Witness for C1 at `n = 2`, `m = 1`, constant delay 1, draw stream 0. -/
theorem c1_run_multiset_invariant_witness :
    ((CustomVehicleGenerator.init 0 0 0 0 (fun _ => 1) 2 1).run
        (fun _ => 0)).events.length = ((2 : Int) + 1).toNat ∧
    (((CustomVehicleGenerator.init 0 0 0 0 (fun _ => 1) 2 1).run
        (fun _ => 0)).events.map (fun e => e.vehicle.vtype)).count "normal" = (2 : Int).toNat ∧
    (((CustomVehicleGenerator.init 0 0 0 0 (fun _ => 1) 2 1).run
        (fun _ => 0)).events.map (fun e => e.vehicle.vtype)).count "ev" = (1 : Int).toNat :=
  c1_run_multiset_invariant 0 0 0 0 (fun _ => 1) 2 1 (fun _ => 0)
    (by norm_num) (by norm_num)
    (CustomVehicleGenerator.run_error_none_of_nonneg _ _ (fun j => by norm_num [CustomVehicleGenerator.init]))

/-- C2: Across a single run from a freshly constructed generator with
`n + m` planned vehicles, the identifiers of the spawned vehicles are exactly
`0, 1, …, n+m-1` in spawn order; and each `generate_vehicle` call advances the
identity counter by exactly one, so two consecutive direct invocations outside
`run` yield strictly increasing, consecutive identifiers. -/
theorem c2_identifiers
    (env parking_res charger_res logger : Nat) (f : Nat → ℚ) (n m : Int)
    (r : Nat → Nat) (hn : 0 ≤ n) (hm : 0 ≤ m)
    (hok : ((CustomVehicleGenerator.init env parking_res charger_res logger f n m).run
      r).error = none) :
    ((CustomVehicleGenerator.init env parking_res charger_res logger f n m).run
        r).events.map (fun e => e.vehicle.vid) = List.range ((n + m).toNat) ∧
    (∀ (g : VehicleGenerator) (vtype : String),
      (g.generate_vehicle vtype).1.next_id = g.next_id + 1 ∧
      (g.generate_vehicle vtype).2.vid = g.next_id) ∧
    (∀ (g : VehicleGenerator) (t1 t2 : String),
      ((g.generate_vehicle t1).1.generate_vehicle t2).2.vid =
        (g.generate_vehicle t1).2.vid + 1) := by
  refine ⟨?_, fun g vtype => ⟨rfl, rfl⟩, fun g t1 t2 => rfl⟩
  rw [CustomVehicleGenerator.run_vids, CustomVehicleGenerator.run_length_of_ok _ r hok]
  show List.range' 0 (n.toNat + m.toNat) = List.range (n + m).toNat
  rw [Int.toNat_add hn hm, ← List.range_eq_range']

/-- Witness for C2 at `n = 2`, `m = 1`, constant delay 1, draw stream 0. -/
theorem c2_identifiers_witness :
    ((CustomVehicleGenerator.init 0 0 0 0 (fun _ => 1) 2 1).run
        (fun _ => 0)).events.map (fun e => e.vehicle.vid) =
      List.range (((2 : Int) + 1).toNat) :=
  (c2_identifiers 0 0 0 0 (fun _ => 1) 2 1 (fun _ => 0)
    (by norm_num) (by norm_num)
    (CustomVehicleGenerator.run_error_none_of_nonneg _ _ (fun j => by norm_num [CustomVehicleGenerator.init]))).1

/-- C3: For every completed run, the simulated time at which the k-th vehicle
(0-based index `i = k-1`) is spawned equals the sum of the first `k` delays
returned by the interarrival sampler: the scheduler suspends for one sampled
delay before each spawn. -/
theorem c3_spawn_times_are_delay_sums
    (env parking_res charger_res logger : Nat) (f : Nat → ℚ) (n m : Int)
    (r : Nat → Nat)
    (hok : ((CustomVehicleGenerator.init env parking_res charger_res logger f n m).run
      r).error = none) :
    ((CustomVehicleGenerator.init env parking_res charger_res logger f n m).run
        r).events.map (fun e => e.time) =
      (List.range ((CustomVehicleGenerator.init env parking_res charger_res logger f n m).run
        r).events.length).map (fun i => ∑ j ∈ Finset.range (i + 1), f j) :=
  CustomVehicleGenerator.run_times
    (CustomVehicleGenerator.init env parking_res charger_res logger f n m) r

/-- Witness for C3, the spec scenario: `n = 3`, `m = 2`, sampler constantly 1,
so the 5 vehicles are spawned at simulated times 1, 2, 3, 4, 5. -/
theorem c3_spawn_times_are_delay_sums_witness :
    ((CustomVehicleGenerator.init 0 0 0 0 (fun _ => 1) 3 2).run
        (fun _ => 0)).events.map (fun e => e.time) = [1, 2, 3, 4, 5] := by
  have hok : ((CustomVehicleGenerator.init 0 0 0 0 (fun _ => 1) 3 2).run
      (fun _ => 0)).error = none :=
    CustomVehicleGenerator.run_error_none_of_nonneg _ _ (fun j => by norm_num [CustomVehicleGenerator.init])
  have h := c3_spawn_times_are_delay_sums 0 0 0 0 (fun _ => 1) 3 2 (fun _ => 0) hok
  have hlen : ((CustomVehicleGenerator.init 0 0 0 0 (fun _ => 1) 3 2).run
      (fun _ => 0)).events.length = 5 := by
    have h5 := CustomVehicleGenerator.run_length_of_ok
      (CustomVehicleGenerator.init 0 0 0 0 (fun _ => 1) 3 2) (fun _ => 0) hok
    simpa using h5
  rw [h, hlen]
  norm_num [List.range_succ, Finset.sum_const]

/-- C4 counterexample: supplying the negative count `-1` at construction
raises nothing: the constructor stores `-1` unchanged (no validation exists in
`CustomVehicleGenerator.__init__`) and the subsequent run completes with no
error of any kind, spawning the 2 `"ev"` vehicles. -/
theorem c4_no_configuration_error_counterexample :
    (CustomVehicleGenerator.init 0 0 0 0 (fun _ => 1) (-1) 2).normal_count = -1 ∧
    ((CustomVehicleGenerator.init 0 0 0 0 (fun _ => 1) (-1) 2).run
        (fun _ => 0)).error = none ∧
    ((CustomVehicleGenerator.init 0 0 0 0 (fun _ => 1) (-1) 2).run
        (fun _ => 0)).events.length = 2 := by
  have hok : ((CustomVehicleGenerator.init 0 0 0 0 (fun _ => 1) (-1) 2).run
      (fun _ => 0)).error = none :=
    CustomVehicleGenerator.run_error_none_of_nonneg _ _
      (fun j => by norm_num [CustomVehicleGenerator.init])
  refine ⟨rfl, hok, ?_⟩
  have h := CustomVehicleGenerator.run_length_of_ok
    (CustomVehicleGenerator.init 0 0 0 0 (fun _ => 1) (-1) 2) (fun _ => 0) hok
  simpa using h

/-- C4 (amended): the constructor performs no validation: a negative
`normal_count` is accepted and stored unchanged, no error is raised at
construction time or at run time on its account, and during `run` the negative
count contributes zero vehicles of its type (Python list repetition with a
negative factor yields the empty list), so with a non-negative sampler the run
completes with exactly `ev_count` vehicles, all of type `"ev"`. -/
theorem c4_negative_count_behaves_as_zero
    (env parking_res charger_res logger : Nat) (f : Nat → ℚ) (n m : Int)
    (r : Nat → Nat) (hn : n < 0) (hm : 0 ≤ m) (hf : ∀ j, 0 ≤ f j) :
    (CustomVehicleGenerator.init env parking_res charger_res logger f n m).normal_count = n ∧
    ((CustomVehicleGenerator.init env parking_res charger_res logger f n m).run
        r).error = none ∧
    ((CustomVehicleGenerator.init env parking_res charger_res logger f n m).run
        r).events.length = m.toNat ∧
    (((CustomVehicleGenerator.init env parking_res charger_res logger f n m).run
        r).events.map (fun e => e.vehicle.vtype)).count "ev" = m.toNat := by
  have hok : ((CustomVehicleGenerator.init env parking_res charger_res logger f n m).run
      r).error = none :=
    CustomVehicleGenerator.run_error_none_of_nonneg _ _ hf
  have hperm := CustomVehicleGenerator.run_vtypes_perm_of_ok _ r hok
  refine ⟨rfl, hok, ?_, ?_⟩
  · rw [CustomVehicleGenerator.run_length_of_ok _ r hok]
    show n.toNat + m.toNat = m.toNat
    rw [Int.toNat_of_nonpos (le_of_lt hn)]
    exact Nat.zero_add _
  · rw [hperm.count_eq]
    show (vehicle_types_list n m).count "ev" = m.toNat
    exact vehicle_types_list_count_ev n m

/-- Witness for the amended C4 at `normal_count = -1`, `ev_count = 2`. -/
theorem c4_negative_count_behaves_as_zero_witness :
    (CustomVehicleGenerator.init 9 9 9 9 (fun _ => 1) (-1) 2).normal_count = -1 ∧
    ((CustomVehicleGenerator.init 9 9 9 9 (fun _ => 1) (-1) 2).run
        (fun _ => 0)).error = none ∧
    ((CustomVehicleGenerator.init 9 9 9 9 (fun _ => 1) (-1) 2).run
        (fun _ => 0)).events.length = (2 : Int).toNat ∧
    (((CustomVehicleGenerator.init 9 9 9 9 (fun _ => 1) (-1) 2).run
        (fun _ => 0)).events.map (fun e => e.vehicle.vtype)).count "ev" = (2 : Int).toNat :=
  c4_negative_count_behaves_as_zero 9 9 9 9 (fun _ => 1) (-1) 2 (fun _ => 0)
    (by norm_num) (by norm_num) (fun j => by norm_num [CustomVehicleGenerator.init])

/-- C5: if the interarrival sampler's call `k` (0-based, the first negative
one) returns a negative delay while the plan still has entries, the run dies
immediately with the substrate's negative-delay error: exactly the first `k`
vehicles were spawned (the remainder of the plan is aborted), and simulated
time advanced only by the first `k` non-negative delays, never by a negative
amount and never silently continuing. -/
theorem c5_negative_delay_fatal
    (env parking_res charger_res logger : Nat) (f : Nat → ℚ) (n m : Int)
    (r : Nat → Nat) (k : Nat) (hk : k < n.toNat + m.toNat)
    (hpos : ∀ j, j < k → 0 ≤ f j) (hneg : f k < 0) :
    ((CustomVehicleGenerator.init env parking_res charger_res logger f n m).run
        r).error = some SimErr.negativeDelay ∧
    ((CustomVehicleGenerator.init env parking_res charger_res logger f n m).run
        r).events.length = k ∧
    ((CustomVehicleGenerator.init env parking_res charger_res logger f n m).run
        r).time = ∑ j ∈ Finset.range k, f j := by
  simp only [CustomVehicleGenerator.run]
  have hlen : k < (random_shuffle r (vehicle_types_list
      (CustomVehicleGenerator.init env parking_res charger_res logger f n m).normal_count
      (CustomVehicleGenerator.init env parking_res charger_res logger f n m).ev_count)).length := by
    rw [random_shuffle_length]
    show k < (vehicle_types_list n m).length
    rw [vehicle_types_list_length]
    exact hk
  have h := CustomVehicleGenerator.runAux_neg
    (CustomVehicleGenerator.init env parking_res charger_res logger f n m).interarrival_func
    (random_shuffle r (vehicle_types_list
      (CustomVehicleGenerator.init env parking_res charger_res logger f n m).normal_count
      (CustomVehicleGenerator.init env parking_res charger_res logger f n m).ev_count))
    (CustomVehicleGenerator.init env parking_res charger_res logger f n m).toVehicleGenerator
    0 0 k hlen
    (fun j hj => by simpa using hpos j hj)
    (by simpa using hneg)
  refine ⟨h.1, h.2.1, ?_⟩
  rw [h.2.2]
  show (0 : ℚ) + ∑ j ∈ Finset.range k, f (0 + j) = ∑ j ∈ Finset.range k, f j
  simp

/-- Witness for C5: one normal and one ev vehicle planned, sampler returns 1
then -1, so the run dies at the second delay having spawned one vehicle at
time 1. -/
theorem c5_negative_delay_fatal_witness :
    ((CustomVehicleGenerator.init 0 0 0 0 (fun j => if j = 0 then 1 else -1) 1 1).run
        (fun _ => 0)).error = some SimErr.negativeDelay ∧
    ((CustomVehicleGenerator.init 0 0 0 0 (fun j => if j = 0 then 1 else -1) 1 1).run
        (fun _ => 0)).events.length = 1 ∧
    ((CustomVehicleGenerator.init 0 0 0 0 (fun j => if j = 0 then 1 else -1) 1 1).run
        (fun _ => 0)).time = ∑ j ∈ Finset.range 1, (fun j => if j = 0 then (1 : ℚ) else -1) j :=
  c5_negative_delay_fatal 0 0 0 0 (fun j => if j = 0 then 1 else -1) 1 1 (fun _ => 0) 1
    (by norm_num)
    (fun j hj => by simp [Nat.lt_one_iff.mp hj])
    (by norm_num)

/-- C6: with `normal_count = 0` and `ev_count = 0` a run spawns zero vehicles
and terminates immediately: no suspension happens (final simulated time is 0)
and the interarrival sampler is never invoked (the result is the same for
every sampler `f`). -/
theorem c6_empty_plan_immediate_termination
    (env parking_res charger_res logger : Nat) (f : Nat → ℚ) (r : Nat → Nat) :
    (CustomVehicleGenerator.init env parking_res charger_res logger f 0 0).run r =
      { gen := { env := env, parking_res := parking_res, charger_res := charger_res,
                 logger := logger, next_id := 0 },
        time := 0, events := [], error := none } := rfl

/-- C7: `CustomVehicleGenerator.run` is behaviorally equivalent to the base
`VehicleGenerator.run` given the same counts, sampler and random draw stream:
both build the same plan, sample the same delays and spawn the same vehicles —
the overriding subclass varies only data and one injected function, not
control flow. -/
theorem c7_custom_run_equals_base_run (c : CustomVehicleGenerator) (r : Nat → Nat) :
    c.run r = c.toVehicleGenerator.run c.normal_count c.ev_count c.interarrival_func r := by
  simp only [CustomVehicleGenerator.run, VehicleGenerator.run]
  exact CustomVehicleGenerator.runAux_eq_base _ _ _ _ _

/-- C8: an instance built by the base `VehicleGenerator` constructor alone
cannot complete a run: `run` reads `normal_count`, `ev_count` and
`interarrival_func`, none of which the base constructor defines, so starting
`run` on a base-constructed instance raises `AttributeError`; an instance
built through `CustomVehicleGenerator.__init__` has all three attributes and
its run proceeds normally. -/
theorem c8_base_constructed_run_fails
    (env parking_res charger_res logger : Nat) (r : Nat → Nat) :
    (VehicleGeneratorPy.initBase env parking_res charger_res logger).run r =
      Except.error PyErr.attributeError ∧
    ∀ (f : Nat → ℚ) (n m : Int),
      (VehicleGeneratorPy.initCustom env parking_res charger_res logger f n m).run r =
        Except.ok (VehicleGenerator.run
          { env := env, parking_res := parking_res, charger_res := charger_res,
            logger := logger, next_id := 0 } n m f r) :=
  ⟨rfl, fun f n m => rfl⟩

/-- C9: `generate_vehicle` passes the stored environment, the two pool handles
and the logger to every spawned vehicle unmodified and mutates nothing but the
identity counter; after a run, the generator's `env`, `parking_res`,
`charger_res` and `logger` are unchanged from construction (only `next_id`
advanced, by the number of spawns), and every spawned vehicle carries the
construction-time handles. -/
theorem c9_scheduler_frame :
    (∀ (g : VehicleGenerator) (vtype : String),
      g.generate_vehicle vtype =
        ({ g with next_id := g.next_id + 1 },
         { vid := g.next_id, vtype := vtype, env := g.env,
           parking_res := g.parking_res, charger_res := g.charger_res,
           logger := g.logger })) ∧
    (∀ (env parking_res charger_res logger : Nat) (f : Nat → ℚ) (n m : Int)
       (r : Nat → Nat),
      ((CustomVehicleGenerator.init env parking_res charger_res logger f n m).run
          r).gen =
        { env := env, parking_res := parking_res, charger_res := charger_res,
          logger := logger,
          next_id := ((CustomVehicleGenerator.init env parking_res charger_res logger
            f n m).run r).events.length } ∧
      ∀ e ∈ ((CustomVehicleGenerator.init env parking_res charger_res logger f n m).run
          r).events,
        e.vehicle.env = env ∧ e.vehicle.parking_res = parking_res ∧
        e.vehicle.charger_res = charger_res ∧ e.vehicle.logger = logger) := by
  refine ⟨fun g vtype => rfl, fun env parking_res charger_res logger f n m r => ⟨?_, ?_⟩⟩
  · rw [CustomVehicleGenerator.run_gen]
    simp [CustomVehicleGenerator.init, VehicleGenerator.init]
  · exact fun e he => CustomVehicleGenerator.run_handles _ r e he

/-- Witness for C9: a spawn at fresh state and the single-ev run, checked at
concrete handles 5, 6, 7, 8. -/
theorem c9_scheduler_frame_witness :
    (VehicleGenerator.init 5 6 7 8).generate_vehicle "ev" =
      ({ env := 5, parking_res := 6, charger_res := 7, logger := 8, next_id := 1 },
       { vid := 0, vtype := "ev", env := 5, parking_res := 6, charger_res := 7,
         logger := 8 }) ∧
    ({ time := 1,
       vehicle := { vid := 0, vtype := "ev", env := 5, parking_res := 6,
                    charger_res := 7, logger := 8 } } : SpawnEvent).vehicle.env = 5 :=
  ⟨c9_scheduler_frame.1 (VehicleGenerator.init 5 6 7 8) "ev",
   ((c9_scheduler_frame.2 5 6 7 8 (fun _ => 1) 0 1 (fun _ => 0)).2
     { time := 1,
       vehicle := { vid := 0, vtype := "ev", env := 5, parking_res := 6,
                    charger_res := 7, logger := 8 } }
     (by norm_num [CustomVehicleGenerator.run, CustomVehicleGenerator.runAux,
       CustomVehicleGenerator.init, VehicleGenerator.init,
       VehicleGenerator.generate_vehicle, random_shuffle, shuffleStep,
       vehicle_types_list])).1⟩

theorem CustomVehicleGenerator.runAux_handle_independent (f : Nat → ℚ) :
    ∀ (plan : List String) (g1 g2 : VehicleGenerator) (k : Nat) (t : ℚ),
      g1.next_id = g2.next_id →
      (CustomVehicleGenerator.runAux f g1 plan k t).events.map
          (fun e => (e.time, e.vehicle.vid, e.vehicle.vtype)) =
        (CustomVehicleGenerator.runAux f g2 plan k t).events.map
          (fun e => (e.time, e.vehicle.vid, e.vehicle.vtype)) ∧
      (CustomVehicleGenerator.runAux f g1 plan k t).time =
        (CustomVehicleGenerator.runAux f g2 plan k t).time ∧
      (CustomVehicleGenerator.runAux f g1 plan k t).error =
        (CustomVehicleGenerator.runAux f g2 plan k t).error := by
  intro plan
  induction plan with
  | nil => intro g1 g2 k t _; simp [CustomVehicleGenerator.runAux]
  | cons vtype rest ih =>
    intro g1 g2 k t hid
    by_cases hd : f k < 0
    · simp [CustomVehicleGenerator.runAux, hd]
    · simp only [CustomVehicleGenerator.runAux, if_neg hd, VehicleGenerator.generate_vehicle,
        List.map_cons]
      rw [hid]
      have hrec := ih { g1 with next_id := g2.next_id + 1 }
        { g2 with next_id := g2.next_id + 1 } (k + 1) (t + f k) rfl
      exact ⟨by rw [hrec.1], hrec.2.1, hrec.2.2⟩

/-- C10: the scheduler is deterministic up to its random sources: two
generators constructed with identical counts, identical sampler and identical
shuffle draw stream — even with different substrate handles — produce the same
spawn schedule (the same time, identifier and type for every spawn, in the
same order), the same final time and the same error status; the scheduler
holds no hidden state that breaks reproducibility. -/
theorem c10_reproducibility
    (env1 parking1 charger1 logger1 env2 parking2 charger2 logger2 : Nat)
    (f : Nat → ℚ) (n m : Int) (r : Nat → Nat) :
    ((CustomVehicleGenerator.init env1 parking1 charger1 logger1 f n m).run
        r).events.map (fun e => (e.time, e.vehicle.vid, e.vehicle.vtype)) =
      ((CustomVehicleGenerator.init env2 parking2 charger2 logger2 f n m).run
        r).events.map (fun e => (e.time, e.vehicle.vid, e.vehicle.vtype)) ∧
    ((CustomVehicleGenerator.init env1 parking1 charger1 logger1 f n m).run r).time =
      ((CustomVehicleGenerator.init env2 parking2 charger2 logger2 f n m).run r).time ∧
    ((CustomVehicleGenerator.init env1 parking1 charger1 logger1 f n m).run r).error =
      ((CustomVehicleGenerator.init env2 parking2 charger2 logger2 f n m).run r).error := by
  simp only [CustomVehicleGenerator.run]
  exact CustomVehicleGenerator.runAux_handle_independent f _ _ _ 0 0 rfl
